import Mathlib

/-!
Verification of the newton-practice repository.

The repository contains two near-duplicate univariate Newton solvers
(`src/newton.py`, the hardened variant, and `src/newton-save.py`) built on
forward finite-difference derivative estimators, plus a multivariate solver
in `src/newton.py` that delegates gradient/Jacobian estimation to scipy.

Modelling conventions:
  * Python reals are modelled as `ℚ`; the float literal `1e-5` is modelled
    as the rational `1/100000`, `1e-6` as `1/1000000`, and so on.  Claims
    settled here are structural (which step size is passed, control flow,
    which exception is raised), not about binary floating-point rounding.
  * Raising an exception is modelled by `PyResult.exn`: Python float/int
    division by zero raises `ZeroDivisionError` (it does not produce
    inf/NaN), a failing `assert` raises `AssertionError`, and `return x_t`
    with `x_t` never assigned raises `UnboundLocalError`.
  * Python dynamic typing at the solver entry points is modelled by a small
    value universe `PyVal`; `isinstance(x0, (int, float))` is true for
    `bool` arguments as well, because `bool` is a subclass of `int` in
    Python.
-/

/-- Exceptions the embedded code can raise, distinguished the way Python
distinguishes them by type and message. -/
inductive PyErr : Type
  /-- `TypeError("Argument is not a function, ...")` from the hardened
  variant's explicit validation of `f`. -/
  | typeErrorNotFunction
  /-- `TypeError("Initial guess x0 must be a number, ...")` from the
  hardened variant's explicit validation of `x0`. -/
  | typeErrorNotNumber
  /-- `TypeError("... object is not callable")` raised at call time when a
  non-callable object is applied (no pre-validation involved). -/
  | typeErrorNotCallable
  /-- `TypeError` from an unsupported arithmetic operand, e.g. `x0 + eps`
  with a non-numeric `x0` (no pre-validation involved). -/
  | typeErrorBadOperand
  /-- `AssertionError` from a failing `assert` statement. -/
  | assertionError
  /-- `ZeroDivisionError` from `/` with a zero right operand. -/
  | zeroDivisionError
  /-- `UnboundLocalError` from reading a local variable never assigned. -/
  | unboundLocalError
  /-- `numpy.linalg.LinAlgError`, e.g. from `np.linalg.inv` on an array
  with fewer than two dimensions. -/
  | linAlgError
deriving DecidableEq, Repr

/-- Result of running a piece of Python code: a value, or a raised
exception that propagates. -/
inductive PyResult (α : Type) : Type
  | ok (v : α)
  | exn (e : PyErr)
deriving DecidableEq, Repr

/-- Python division on numbers: `a / b` raises `ZeroDivisionError` when
`b` is zero, otherwise returns the quotient. -/
def pydiv (a b : ℚ) : PyResult ℚ :=
  if b = 0 then .exn .zeroDivisionError else .ok (a / b)

/-- The default finite-difference step `eps = 1e-5` shared by both source
files. -/
def eps0 : ℚ := 1 / 100000

/-- Embedding of `finite_difference_first(f, x, eps=1e-5)`, defined with
identical bodies in `src/newton.py` (line 25) and `src/newton-save.py`
(line 19): `return (f(x + eps) - f(x)) / (eps)`. -/
def finite_difference_first (f : ℚ → ℚ) (x : ℚ) (eps : ℚ) : PyResult ℚ :=
  pydiv (f (x + eps) - f x) eps

/-- Embedding of `finite_difference_second(f, x, eps=1e-5)`, defined with
identical bodies in `src/newton.py` (line 46) and `src/newton-save.py`
(line 39):
`return (finite_difference_first(f, x + eps) - finite_difference_first(f, x)) / (eps)`.
Note that the two inner calls pass no `eps` argument, so they use the
default step `1e-5` (`eps0`) regardless of the `eps` the caller supplied;
only the outer division uses the caller's `eps`. -/
def finite_difference_second (f : ℚ → ℚ) (x : ℚ) (eps : ℚ) : PyResult ℚ :=
  match finite_difference_first f (x + eps) eps0, finite_difference_first f x eps0 with
  | .ok a, .ok b => pydiv (a - b) eps
  | .exn e, _ => .exn e
  | .ok _, .exn e => .exn e

/-- Written from the spec's words (§4.1), for comparison with the source
function `finite_difference_second`: "returns
(firstDerivative(f, x+eps, eps) − firstDerivative(f, x, eps)) / eps", i.e.
the inner first-derivative estimates take the caller's step `eps`. -/
def finite_difference_second_spec (f : ℚ → ℚ) (x : ℚ) (eps : ℚ) : PyResult ℚ :=
  match finite_difference_first f (x + eps) eps, finite_difference_first f x eps with
  | .ok a, .ok b => pydiv (a - b) eps
  | .exn e, _ => .exn e
  | .ok _, .exn e => .exn e

/-- Pure value of the first-derivative estimator (the forward difference
quotient); agrees with `finite_difference_first` whenever `eps ≠ 0`. -/
def fdFirstQ (f : ℚ → ℚ) (x : ℚ) (eps : ℚ) : ℚ :=
  (f (x + eps) - f x) / eps

/-- Pure value of the second-derivative estimator at the default step: the
inner first-derivative estimates always use the default `eps0`, and so does
the outer division when the caller leaves `eps` at its default. -/
def fdSecondQ (f : ℚ → ℚ) (x : ℚ) : ℚ :=
  (fdFirstQ f (x + eps0) eps0 - fdFirstQ f x eps0) / eps0

theorem eps0_ne_zero : eps0 ≠ 0 := by norm_num [eps0]

theorem finite_difference_first_ok (f : ℚ → ℚ) (x eps : ℚ) (h : eps ≠ 0) :
    finite_difference_first f x eps = .ok (fdFirstQ f x eps) := by
  simp [finite_difference_first, pydiv, fdFirstQ, h]

theorem finite_difference_second_ok (f : ℚ → ℚ) (x eps : ℚ) (h : eps ≠ 0) :
    finite_difference_second f x eps
      = .ok ((fdFirstQ f (x + eps) eps0 - fdFirstQ f x eps0) / eps) := by
  rw [finite_difference_second,
    finite_difference_first_ok f (x + eps) eps0 eps0_ne_zero,
    finite_difference_first_ok f x eps0 eps0_ne_zero]
  simp [pydiv, h]

theorem finite_difference_second_default_ok (f : ℚ → ℚ) (x : ℚ) :
    finite_difference_second f x eps0 = .ok (fdSecondQ f x) := by
  rw [finite_difference_second_ok f x eps0 eps0_ne_zero, fdSecondQ]

/-- Small universe of Python values for the solver entry points, where
dynamic typing matters (`callable(f)`, `isinstance(x0, (int, float))`). -/
inductive PyVal : Type
  | int (n : ℤ)
  | float (q : ℚ)
  | bool (b : Bool)
  | str (s : String)
  | func (f : ℚ → ℚ)
  | none_

/-- Python `callable(v)`: true exactly for function values in this
universe. -/
def pyCallable : PyVal → Bool
  | .func _ => true
  | _ => false

/-- Python `isinstance(v, (int, float))` together with the numeric value
of `v` used by subsequent arithmetic: `some` for `int`, `float`, and also
`bool` (in Python `bool` is a subclass of `int`, `True == 1`, `False == 0`),
`none` for everything else. -/
def pyNum? : PyVal → Option ℚ
  | .int n => some (n : ℚ)
  | .float q => some q
  | .bool b => some (if b then 1 else 0)
  | _ => none

namespace Newton

/-- Embedding of the `for i in range(iteration): ...` loop of
`newton_method` in `src/newton.py` (lines 78-94), running on numeric state.
Arguments: remaining budget, current `x`, and the last value assigned to
`x_t` (`none` when `x_t` was never assigned).  Each loop pass computes the
two derivative estimates (default step), executes
`assert second_derivatives == 0, "Second derivative is zero."` — which
raises `AssertionError` exactly when the estimate is nonzero — then
computes `x_t = x - first_derivatives / second_derivatives` (Python
division, raising on a zero denominator), emits a non-fatal warning on a
large step (no effect on the result, so not modelled), returns `x_t` on
`abs(x_t - x) < tol`, else continues with `x = x_t`.  After the loop,
`return x_t` raises `UnboundLocalError` when no pass ever ran.  The second
component counts the loop passes that called the derivative-estimator
pair. -/
def newton_method_loop (f : ℚ → ℚ) (tol : ℚ) :
    ℕ → ℚ → Option ℚ → PyResult ℚ × ℕ
  | 0, _, none => (.exn .unboundLocalError, 0)
  | 0, _, some xt => (.ok xt, 0)
  | n + 1, x, _ =>
    match finite_difference_first f x eps0, finite_difference_second f x eps0 with
    | .ok fd, .ok sd =>
      if sd = 0 then
        -- the assert passes; `x_t = x - fd / sd` divides by zero
        match pydiv fd sd with
        | .exn e => (.exn e, 1)
        | .ok q =>
          let xt := x - q
          if |xt - x| < tol then (.ok xt, 1)
          else
            match newton_method_loop f tol n xt (some xt) with
            | (r, c) => (r, c + 1)
      else (.exn .assertionError, 1)
    | .exn e, _ => (.exn e, 1)
    | .ok _, .exn e => (.exn e, 1)

/-- Embedding of `newton_method(f, x0, tol=1e-6, iteration=100)` in
`src/newton.py` (lines 49-94): validation first — `TypeError` when `f` is
not callable, then `TypeError` when `x0` is not an `int`/`float` instance —
then the iteration loop starting from `x = x0` with `x_t` unassigned.  The
second component counts derivative-estimator-pair calls (0 when validation
raises). -/
def newton_method (fv x0v : PyVal) (tol : ℚ) (iteration : ℕ) :
    PyResult ℚ × ℕ :=
  match fv with
  | .func f =>
    match pyNum? x0v with
    | some q => newton_method_loop f tol iteration q none
    | none => (.exn .typeErrorNotNumber, 0)
  | _ => (.exn .typeErrorNotFunction, 0)

end Newton

namespace NewtonSave

/-- Embedding of the loop of `newton_method` in `src/newton-save.py`
(lines 65-77): identical to the hardened variant's loop but with no
`assert` — when the second-derivative estimate is zero the Newton update
itself raises `ZeroDivisionError`.  Same state and call-count conventions
as `Newton.newton_method_loop`. -/
def newton_method_loop (f : ℚ → ℚ) (tol : ℚ) :
    ℕ → ℚ → Option ℚ → PyResult ℚ × ℕ
  | 0, _, none => (.exn .unboundLocalError, 0)
  | 0, _, some xt => (.ok xt, 0)
  | n + 1, x, _ =>
    match finite_difference_first f x eps0, finite_difference_second f x eps0 with
    | .ok fd, .ok sd =>
      match pydiv fd sd with
      | .exn e => (.exn e, 1)
      | .ok q =>
        let xt := x - q
        if |xt - x| < tol then (.ok xt, 1)
        else
          match newton_method_loop f tol n xt (some xt) with
          | (r, c) => (r, c + 1)
    | .exn e, _ => (.exn e, 1)
    | .ok _, .exn e => (.exn e, 1)

/-- Embedding of `newton_method(f, x0, tol=1e-6, iteration=100)` in
`src/newton-save.py` (lines 41-77).  There is no validation: with a
positive budget the first loop pass immediately calls
`finite_difference_first(f, x0)`, which first evaluates `x0 + eps`
(raising `TypeError` on a non-numeric `x0`) and then applies `f` (raising
`TypeError` when `f` is not callable); with budget 0 the trailing
`return x_t` raises `UnboundLocalError`. -/
def newton_method (fv x0v : PyVal) (tol : ℚ) (iteration : ℕ) :
    PyResult ℚ × ℕ :=
  match iteration with
  | 0 => (.exn .unboundLocalError, 0)
  | n + 1 =>
    match pyNum? x0v with
    | none => (.exn .typeErrorBadOperand, 1)
    | some q =>
      match fv with
      | .func f => newton_method_loop f tol (n + 1) q none
      | _ => (.exn .typeErrorNotCallable, 1)

end NewtonSave

namespace Newton

/-- Vector `x` with coordinate `i` bumped by step `h` (out-of-range `i`
leaves the length unchanged; only in-range indices are ever used). -/
def bump (x : List ℚ) (i : ℕ) (h : ℚ) : List ℚ :=
  x.set i (x.getD i 0 + h)

/-- Modelled from the spec (§6): the external gradient-approximation
routine `scipy.optimize.approx_fprime(x, f, epsilon)` — forward
differences `(f(x + eps*e_i) - f(x)) / eps` in each coordinate, returning
a vector of the same length as `x`. -/
def approx_fprime (x : List ℚ) (f : List ℚ → ℚ) (epsilon : ℚ) : List ℚ :=
  (List.range x.length).map fun i => (f (bump x i epsilon) - f x) / epsilon

/-- Modelled from the spec (§6): the external Jacobian-approximation
routine `scipy.optimize.approx_derivative(fun, x0, method='2-point',
abs_step=...)` applied to a SCALAR-valued function.  Per the scipy
contract, the 2-point method takes forward differences with the given
absolute step, and for a scalar-valued function the returned Jacobian is
the one-dimensional gradient array of shape `(n,)` — not a square
matrix. -/
def approx_derivative (f : List ℚ → ℚ) (x : List ℚ) (abs_step : ℚ) : List ℚ :=
  (List.range x.length).map fun i => (f (bump x i abs_step) - f x) / abs_step

/-- Modelled from the spec (§6)/numpy contract: `np.linalg.inv` applied to
a one-dimensional array raises `LinAlgError` ("...array must be at least
two-dimensional"); it never returns.  The embedded `multivariate_newton`
only ever reaches `np.linalg.inv` with the one-dimensional result of
`approx_derivative` on a scalar-valued `f`, so this is the only case the
embedding needs. -/
def np_linalg_inv_1d (_v : List ℚ) : PyResult (List (List ℚ)) :=
  .exn .linAlgError

/-- Matrix-vector product `np.dot(m, v)` for a 2-D `m` and 1-D `v`. -/
def matVec (m : List (List ℚ)) (v : List ℚ) : List ℚ :=
  m.map fun row => (List.zipWith (fun a b => a * b) row v).sum

/-- Sum of squares of a vector; `np.linalg.norm w < tol` is equivalent to
`sumSq w < tol^2` for positive `tol`. -/
def sumSq (v : List ℚ) : ℚ :=
  (v.map fun a => a * a).sum

/-- Embedding of the `for i in range(max_iter): ...` loop of
`multivariate_newton` in `src/newton.py` (lines 117-126): per pass,
`grad = approx_fprime(x, f, epsilon=1e-8)`,
`hess = approx_derivative(f, x, method='2-point', abs_step=1e-5)` — note
the routine is applied to `f` itself, so for scalar `f` it returns the
1-D gradient array, and `np.linalg.inv(hess)` raises `LinAlgError` —
then `delta = np.dot(np.linalg.inv(hess), grad)`, `x_new = x - delta`,
return `x_new` when `np.linalg.norm(x_new - x) < tol`, else continue;
after the loop return `x`. -/
def multivariate_newton_loop (f : List ℚ → ℚ) (tol : ℚ) :
    ℕ → List ℚ → PyResult (List ℚ)
  | 0, x => .ok x
  | n + 1, x =>
    let grad := approx_fprime x f (1 / 100000000)
    let hess := approx_derivative f x (1 / 100000)
    match np_linalg_inv_1d hess with
    | .exn e => .exn e
    | .ok hinv =>
      let delta := matVec hinv grad
      let x_new := List.zipWith (fun a b => a - b) x delta
      if sumSq (List.zipWith (fun a b => a - b) x_new x) < tol ^ 2 then .ok x_new
      else multivariate_newton_loop f tol n x_new

/-- Embedding of `multivariate_newton(f, x0, tol=1e-6, max_iter=100)` in
`src/newton.py` (lines 96-126): `x = np.array(x0, dtype=float)` then the
iteration loop. -/
def multivariate_newton (f : List ℚ → ℚ) (x0 : List ℚ) (tol : ℚ)
    (max_iter : ℕ) : PyResult (List ℚ) :=
  multivariate_newton_loop f tol max_iter x0

end Newton

/-- Written from the claim's words (C8): one Newton update of the
univariate solver, `x_t = x − firstDerivative/secondDerivative` with the
finite-difference estimates (default step) at the current `x`. -/
def newtonSpecStep (f : ℚ → ℚ) (x : ℚ) : ℚ :=
  x - fdFirstQ f x eps0 / fdSecondQ f x

/-- Written from the claim's words (C8), as a pure reference recursion for
a positive budget: the solver stops and returns `x_t` at the first
iteration where `|x_t − x| < tol`, and when no iteration within the budget
satisfies this it returns the last computed `x_t`. -/
def newtonSpecRun (f : ℚ → ℚ) (tol : ℚ) : ℕ → ℚ → ℚ
  | 0, x => x
  | n + 1, x =>
    if |newtonSpecStep f x - x| < tol then newtonSpecStep f x
    else
      match n with
      | 0 => newtonSpecStep f x
      | m + 1 => newtonSpecRun f tol (m + 1) (newtonSpecStep f x)

/-- Decidable guard for C8: along the first `n` iterations from `x` (or
until convergence), every second-derivative estimate the solver divides by
is nonzero. -/
def noSingular (f : ℚ → ℚ) (tol : ℚ) : ℕ → ℚ → Bool
  | 0, _ => true
  | n + 1, x =>
    if fdSecondQ f x = 0 then false
    else if |newtonSpecStep f x - x| < tol then true
    else noSingular f tol n (newtonSpecStep f x)

theorem newton_loop_step_nonzero (f : ℚ → ℚ) (tol : ℚ) (n : ℕ) (x : ℚ)
    (xt? : Option ℚ) (h : fdSecondQ f x ≠ 0) :
    Newton.newton_method_loop f tol (n + 1) x xt? = (.exn .assertionError, 1) := by
  rw [Newton.newton_method_loop, finite_difference_first_ok f x eps0 eps0_ne_zero,
    finite_difference_second_default_ok f x]
  simp [h]

theorem newton_loop_step_zero (f : ℚ → ℚ) (tol : ℚ) (n : ℕ) (x : ℚ)
    (xt? : Option ℚ) (h : fdSecondQ f x = 0) :
    Newton.newton_method_loop f tol (n + 1) x xt? = (.exn .zeroDivisionError, 1) := by
  rw [Newton.newton_method_loop, finite_difference_first_ok f x eps0 eps0_ne_zero,
    finite_difference_second_default_ok f x]
  simp [h, pydiv]

theorem save_loop_step_zero (f : ℚ → ℚ) (tol : ℚ) (n : ℕ) (x : ℚ)
    (xt? : Option ℚ) (h : fdSecondQ f x = 0) :
    NewtonSave.newton_method_loop f tol (n + 1) x xt? = (.exn .zeroDivisionError, 1) := by
  rw [NewtonSave.newton_method_loop, finite_difference_first_ok f x eps0 eps0_ne_zero,
    finite_difference_second_default_ok f x]
  simp [h, pydiv]

theorem save_loop_step_conv (f : ℚ → ℚ) (tol : ℚ) (n : ℕ) (x : ℚ)
    (xt? : Option ℚ) (h : fdSecondQ f x ≠ 0)
    (hc : |newtonSpecStep f x - x| < tol) :
    NewtonSave.newton_method_loop f tol (n + 1) x xt? = (.ok (newtonSpecStep f x), 1) := by
  rw [NewtonSave.newton_method_loop, finite_difference_first_ok f x eps0 eps0_ne_zero,
    finite_difference_second_default_ok f x]
  simp only [pydiv, if_neg h]
  rw [show x - fdFirstQ f x eps0 / fdSecondQ f x = newtonSpecStep f x from rfl]
  simp [hc]

theorem save_loop_step_next (f : ℚ → ℚ) (tol : ℚ) (n : ℕ) (x : ℚ)
    (xt? : Option ℚ) (h : fdSecondQ f x ≠ 0)
    (hc : ¬ |newtonSpecStep f x - x| < tol) :
    NewtonSave.newton_method_loop f tol (n + 1) x xt?
      = ((NewtonSave.newton_method_loop f tol n (newtonSpecStep f x)
            (some (newtonSpecStep f x))).1,
         (NewtonSave.newton_method_loop f tol n (newtonSpecStep f x)
            (some (newtonSpecStep f x))).2 + 1) := by
  rw [NewtonSave.newton_method_loop, finite_difference_first_ok f x eps0 eps0_ne_zero,
    finite_difference_second_default_ok f x]
  simp only [pydiv, if_neg h]
  rw [show x - fdFirstQ f x eps0 / fdSecondQ f x = newtonSpecStep f x from rfl]
  simp [hc]

theorem newton_loop_count_le (f : ℚ → ℚ) (tol : ℚ) :
    ∀ (n : ℕ) (x : ℚ) (xt? : Option ℚ),
      (Newton.newton_method_loop f tol n x xt?).2 ≤ n := by
  intro n
  induction n with
  | zero => intro x xt?; cases xt? <;> simp [Newton.newton_method_loop]
  | succ m _ =>
    intro x xt?
    by_cases h : fdSecondQ f x = 0
    · rw [newton_loop_step_zero f tol m x xt? h]; omega
    · rw [newton_loop_step_nonzero f tol m x xt? h]; omega

theorem save_loop_count_le (f : ℚ → ℚ) (tol : ℚ) :
    ∀ (n : ℕ) (x : ℚ) (xt? : Option ℚ),
      (NewtonSave.newton_method_loop f tol n x xt?).2 ≤ n := by
  intro n
  induction n with
  | zero => intro x xt?; cases xt? <;> simp [NewtonSave.newton_method_loop]
  | succ m ih =>
    intro x xt?
    by_cases h : fdSecondQ f x = 0
    · rw [save_loop_step_zero f tol m x xt? h]; omega
    · by_cases hc : |newtonSpecStep f x - x| < tol
      · rw [save_loop_step_conv f tol m x xt? h hc]; omega
      · rw [save_loop_step_next f tol m x xt? h hc]
        have := ih (newtonSpecStep f x) (some (newtonSpecStep f x))
        simpa using Nat.succ_le_succ this

theorem save_loop_result_cases (f : ℚ → ℚ) (tol : ℚ) :
    ∀ (n : ℕ) (x : ℚ) (xt? : Option ℚ),
      (∃ q, (NewtonSave.newton_method_loop f tol n x xt?).1 = .ok q)
      ∨ (NewtonSave.newton_method_loop f tol n x xt?).1 = .exn .zeroDivisionError
      ∨ (NewtonSave.newton_method_loop f tol n x xt?).1 = .exn .unboundLocalError := by
  intro n
  induction n with
  | zero =>
    intro x xt?
    cases xt? with
    | none => right; right; simp [NewtonSave.newton_method_loop]
    | some xt => left; exact ⟨xt, by simp [NewtonSave.newton_method_loop]⟩
  | succ m ih =>
    intro x xt?
    by_cases h : fdSecondQ f x = 0
    · right; left; rw [save_loop_step_zero f tol m x xt? h]
    · by_cases hc : |newtonSpecStep f x - x| < tol
      · left; exact ⟨newtonSpecStep f x, by rw [save_loop_step_conv f tol m x xt? h hc]⟩
      · rw [save_loop_step_next f tol m x xt? h hc]
        exact ih (newtonSpecStep f x) (some (newtonSpecStep f x))

theorem newton_loop_result_cases (f : ℚ → ℚ) (tol : ℚ) :
    ∀ (n : ℕ) (x : ℚ) (xt? : Option ℚ),
      (∃ q, (Newton.newton_method_loop f tol n x xt?).1 = .ok q)
      ∨ (Newton.newton_method_loop f tol n x xt?).1 = .exn .assertionError
      ∨ (Newton.newton_method_loop f tol n x xt?).1 = .exn .zeroDivisionError
      ∨ (Newton.newton_method_loop f tol n x xt?).1 = .exn .unboundLocalError := by
  intro n
  induction n with
  | zero =>
    intro x xt?
    cases xt? with
    | none => right; right; right; simp [Newton.newton_method_loop]
    | some xt => left; exact ⟨xt, by simp [Newton.newton_method_loop]⟩
  | succ m _ =>
    intro x xt?
    by_cases h : fdSecondQ f x = 0
    · right; right; left; rw [newton_loop_step_zero f tol m x xt? h]
    · right; left; rw [newton_loop_step_nonzero f tol m x xt? h]

theorem save_loop_refines_spec (f : ℚ → ℚ) (tol : ℚ) :
    ∀ (n : ℕ) (x : ℚ) (xt? : Option ℚ), noSingular f tol (n + 1) x = true →
      (NewtonSave.newton_method_loop f tol (n + 1) x xt?).1
        = .ok (newtonSpecRun f tol (n + 1) x) := by
  intro n
  induction n with
  | zero =>
    intro x xt? h
    rw [noSingular] at h
    by_cases hs : fdSecondQ f x = 0
    · rw [if_pos hs] at h; exact absurd h (by simp)
    · rw [if_neg hs] at h
      by_cases hc : |newtonSpecStep f x - x| < tol
      · rw [save_loop_step_conv f tol 0 x xt? hs hc, newtonSpecRun, if_pos hc]
      · rw [save_loop_step_next f tol 0 x xt? hs hc, newtonSpecRun, if_neg hc]
        simp [NewtonSave.newton_method_loop]
  | succ m ih =>
    intro x xt? h
    rw [noSingular] at h
    by_cases hs : fdSecondQ f x = 0
    · rw [if_pos hs] at h; exact absurd h (by simp)
    · rw [if_neg hs] at h
      by_cases hc : |newtonSpecStep f x - x| < tol
      · rw [save_loop_step_conv f tol (m + 1) x xt? hs hc, newtonSpecRun, if_pos hc]
      · rw [if_neg hc] at h
        rw [save_loop_step_next f tol (m + 1) x xt? hs hc, newtonSpecRun, if_neg hc]
        exact ih (newtonSpecStep f x) (some (newtonSpecStep f x)) h

theorem fdSecondQ_sq (x : ℚ) : fdSecondQ (fun y => y ^ 2) x = 2 := by
  field_simp [fdSecondQ, fdFirstQ, eps0]
  ring

theorem specStep_sq (x : ℚ) : newtonSpecStep (fun y => y ^ 2) x = -(eps0 / 2) := by
  rw [newtonSpecStep, fdSecondQ_sq]
  field_simp [fdFirstQ, eps0]
  ring

theorem newton_loop_count_pos (f : ℚ → ℚ) (tol : ℚ) (m : ℕ) (x : ℚ)
    (xt? : Option ℚ) : 1 ≤ (Newton.newton_method_loop f tol (m + 1) x xt?).2 := by
  by_cases h : fdSecondQ f x = 0
  · rw [newton_loop_step_zero f tol m x xt? h]
  · rw [newton_loop_step_nonzero f tol m x xt? h]

theorem newton_method_run (f : ℚ → ℚ) (q tol : ℚ) (n : ℕ) :
    Newton.newton_method (.func f) (.float q) tol n
      = Newton.newton_method_loop f tol n q none := rfl

theorem save_method_run (f : ℚ → ℚ) (q tol : ℚ) (n : ℕ) :
    NewtonSave.newton_method (.func f) (.float q) tol (n + 1)
      = NewtonSave.newton_method_loop f tol (n + 1) q none := rfl

/-- C1: the claim says the hardened solver's per-iteration assert raises
exactly when the second-derivative estimate is zero, and raises nothing
when all estimates are nonzero.  The code has the test inverted
(`assert second_derivatives == 0`), so on the repository's own demo input
`f(x) = x^2 - 2`, `x0 = 1.0` — where the estimate is exactly 2, nonzero —
the very first iteration raises `AssertionError`, contradicting the
claim, the assert's own message ("Second derivative is zero.") and the
demo script that expects a root to be printed. -/
theorem C1_hardened_assert_raises_on_nonzero_estimate :
    (Newton.newton_method (.func fun x : ℚ => x ^ 2 - 2) (.float 1)
      (1 / 1000000) 100).1 = .exn .assertionError := by
  have h : fdSecondQ (fun x : ℚ => x ^ 2 - 2) 1 ≠ 0 := by
    norm_num [fdSecondQ, fdFirstQ, eps0]
  rw [newton_method_run, show (100 : ℕ) = 99 + 1 from rfl,
    newton_loop_step_nonzero _ _ _ _ _ h]

/-- C2: for every (callable) `f` and numeric `x0`, the hardened
`newton_method` with a positive iteration budget never returns: the first
iteration raises `AssertionError` when the second-derivative estimate at
`x0` is nonzero (the assert tests equality with zero), and raises
`ZeroDivisionError` from the Newton update when that estimate is exactly
zero. -/
theorem C2_hardened_always_raises_on_first_iteration (f : ℚ → ℚ)
    (x0 tol : ℚ) (n : ℕ) (h : 1 ≤ n) :
    (Newton.newton_method (.func f) (.float x0) tol n).1
      = .exn (if fdSecondQ f x0 = 0 then .zeroDivisionError else .assertionError) := by
  obtain ⟨m, rfl⟩ : ∃ m, n = m + 1 := ⟨n - 1, by omega⟩
  rw [newton_method_run]
  by_cases hs : fdSecondQ f x0 = 0
  · rw [newton_loop_step_zero _ _ _ _ _ hs, if_pos hs]
  · rw [newton_loop_step_nonzero _ _ _ _ _ hs, if_neg hs]

/-- Witness for C2 at `f(x) = x^2`, `x0 = 3`, budget 100. -/
theorem C2_hardened_always_raises_witness :
    (Newton.newton_method (.func fun x : ℚ => x ^ 2) (.float 3) (1 / 1000000) 100).1
      = .exn (if fdSecondQ (fun x : ℚ => x ^ 2) 3 = 0
              then .zeroDivisionError else .assertionError) :=
  C2_hardened_always_raises_on_first_iteration (fun x => x ^ 2) 3 (1 / 1000000) 100
    (by norm_num)

/-- C3: counterexample to "the inner first-derivative estimates are taken
with the same step eps that the caller supplied": at `f(x) = x^3`, `x = 0`,
`eps = 1`, the source function (inner step fixed at the default 1e-5)
returns `300003/100000`, while the spec's formula (inner step `eps`)
returns `6`. -/
theorem C3_inner_eps_counterexample :
    finite_difference_second (fun x : ℚ => x ^ 3) 0 1
      ≠ finite_difference_second_spec (fun x : ℚ => x ^ 3) 0 1 := by
  have hc : finite_difference_second (fun x : ℚ => x ^ 3) 0 1
      = .ok (300003 / 100000) := by
    rw [finite_difference_second_ok _ _ _ (by norm_num : (1 : ℚ) ≠ 0)]
    norm_num [fdFirstQ, eps0]
  have hs : finite_difference_second_spec (fun x : ℚ => x ^ 3) 0 1 = .ok 6 := by
    rw [finite_difference_second_spec,
      finite_difference_first_ok _ _ _ (by norm_num : (1 : ℚ) ≠ 0),
      finite_difference_first_ok _ _ _ (by norm_num : (1 : ℚ) ≠ 0)]
    norm_num [fdFirstQ, pydiv]
  rw [hc, hs]
  intro hcontra
  exact absurd (PyResult.ok.inj hcontra) (by norm_num)

/-- C3 (amended): `secondDerivative(f, x, eps)` divides by the caller's
`eps`, but its two inner first-derivative estimates always use the default
step 1e-5, whatever `eps` the caller supplied; the claim's formula holds
exactly when `eps` equals the default step. -/
theorem C3_inner_eps_is_default_step :
    (∀ (f : ℚ → ℚ) (x eps : ℚ), eps ≠ 0 →
      finite_difference_second f x eps
        = .ok ((fdFirstQ f (x + eps) eps0 - fdFirstQ f x eps0) / eps))
    ∧ ∀ (f : ℚ → ℚ) (x : ℚ),
        finite_difference_second f x eps0 = finite_difference_second_spec f x eps0 :=
  ⟨fun f x eps h => finite_difference_second_ok f x eps h, fun _ _ => rfl⟩

/-- Witness for C3 (amended) at `f(x) = x^3`, `x = 0`, `eps = 1`. -/
theorem C3_inner_eps_witness :
    finite_difference_second (fun x : ℚ => x ^ 3) 0 1
      = .ok ((fdFirstQ (fun x : ℚ => x ^ 3) (0 + 1) eps0
              - fdFirstQ (fun x : ℚ => x ^ 3) 0 eps0) / 1) :=
  C3_inner_eps_is_default_step.1 (fun x => x ^ 3) 0 1 (by norm_num)

/-- C4: the claim says each multivariate iteration computes the Hessian as
a numerical Jacobian of the gradient and then applies its inverse.  The
code instead passes `f` itself to the Jacobian routine
(`approx_derivative(f, x, ...)`), which for scalar-valued `f` is exactly
the gradient estimator again (first conjunct), a one-dimensional array;
`np.linalg.inv` on a one-dimensional array raises `LinAlgError`, so on
`f(v) = v0^2 + v1^2` from `x0 = [1, 1]` the solver raises on its first
iteration instead of performing the claimed Hessian-based update (second
conjunct). -/
theorem C4_multivariate_hessian_slip :
    (∀ (f : List ℚ → ℚ) (x : List ℚ) (h : ℚ),
      Newton.approx_derivative f x h = Newton.approx_fprime x f h)
    ∧ Newton.multivariate_newton
        (fun v => (v.getD 0 0) ^ 2 + (v.getD 1 0) ^ 2) [1, 1] (1 / 1000000) 100
        = .exn .linAlgError :=
  ⟨fun _ _ _ => rfl, rfl⟩

/-- Witness for C4's universally quantified first conjunct at a concrete
function, vector and step (the conjunct has no hypothesis, but the
instance documents it concretely). -/
theorem C4_multivariate_hessian_slip_witness :
    Newton.approx_derivative (fun v => (v.getD 0 0) ^ 2) [2] (1 / 100000)
      = Newton.approx_fprime [2] (fun v => (v.getD 0 0) ^ 2) (1 / 100000) :=
  C4_multivariate_hessian_slip.1 (fun v => (v.getD 0 0) ^ 2) [2] (1 / 100000)

/-- C5: counterexample to "with maxIterations = 0 it returns x0 unchanged
(or the first computed x_t)": with a zero budget the loop body never runs,
so the trailing `return x_t` reads a never-assigned local and raises
`UnboundLocalError` — no value is returned at all. -/
theorem C5_zero_iterations_counterexample :
    (NewtonSave.newton_method (.func fun x : ℚ => x ^ 2) (.float 1)
      (1 / 1000000) 0).1 = .exn .unboundLocalError := rfl

/-- C5 (amended): both variants make at most `maxIterations` calls to the
first-and-second-derivative estimator pair, but with `maxIterations = 0`
neither returns `x0` nor a computed `x_t`: the trailing `return x_t`
raises `UnboundLocalError` in both. -/
theorem C5_budget_and_zero_iterations :
    (∀ (fv x0v : PyVal) (tol : ℚ) (n : ℕ),
      (Newton.newton_method fv x0v tol n).2 ≤ n
      ∧ (NewtonSave.newton_method fv x0v tol n).2 ≤ n)
    ∧ ∀ (f : ℚ → ℚ) (x0 tol : ℚ),
        (Newton.newton_method (.func f) (.float x0) tol 0).1 = .exn .unboundLocalError
        ∧ (NewtonSave.newton_method (.func f) (.float x0) tol 0).1
            = .exn .unboundLocalError := by
  constructor
  · intro fv x0v tol n
    constructor
    · cases fv with
      | func f =>
        cases hx : pyNum? x0v with
        | none => simp [Newton.newton_method, hx]
        | some q =>
          simpa [Newton.newton_method, hx] using newton_loop_count_le f tol n q none
      | int m => simp [Newton.newton_method]
      | float q => simp [Newton.newton_method]
      | bool b => simp [Newton.newton_method]
      | str s => simp [Newton.newton_method]
      | none_ => simp [Newton.newton_method]
    · cases n with
      | zero => simp [NewtonSave.newton_method]
      | succ m =>
        cases hx : pyNum? x0v with
        | none => simp [NewtonSave.newton_method, hx]
        | some q =>
          cases fv with
          | func f =>
            simpa [NewtonSave.newton_method, hx]
              using save_loop_count_le f tol (m + 1) q none
          | int k => simp [NewtonSave.newton_method, hx]
          | float r => simp [NewtonSave.newton_method, hx]
          | bool b => simp [NewtonSave.newton_method, hx]
          | str s => simp [NewtonSave.newton_method, hx]
          | none_ => simp [NewtonSave.newton_method, hx]
  · exact fun f x0 tol => ⟨rfl, rfl⟩

/-- C6: counterexample to "eps = 0 signals no error: the division by zero
propagates as inf/NaN in the returned float rather than raising": Python
float division by zero raises `ZeroDivisionError`, so
`finite_difference_first(f, x, 0)` raises instead of returning a float. -/
theorem C6_eps_zero_counterexample :
    finite_difference_first (fun x : ℚ => x ^ 2) 1 0 = .exn .zeroDivisionError := by
  simp [finite_difference_first, pydiv]

/-- C6 (amended): calling either derivative estimator with `eps = 0` does
signal an error — `(f(x+0) - f(x)) / 0` is Python float division by zero,
which raises `ZeroDivisionError`; no inf/NaN value is ever returned. -/
theorem C6_eps_zero_raises (f : ℚ → ℚ) (x : ℚ) :
    finite_difference_first f x 0 = .exn .zeroDivisionError
    ∧ finite_difference_second f x 0 = .exn .zeroDivisionError := by
  constructor
  · simp [finite_difference_first, pydiv]
  · rw [finite_difference_second,
      finite_difference_first_ok f (x + 0) eps0 eps0_ne_zero,
      finite_difference_first_ok f x eps0 eps0_ne_zero]
    simp [pydiv]

/-- Witness for C6 (amended) at `f(x) = x^3 + 1`, `x = 2`. -/
theorem C6_eps_zero_raises_witness :
    finite_difference_first (fun x : ℚ => x ^ 3 + 1) 2 0 = .exn .zeroDivisionError
    ∧ finite_difference_second (fun x : ℚ => x ^ 3 + 1) 2 0 = .exn .zeroDivisionError :=
  C6_eps_zero_raises (fun x => x ^ 3 + 1) 2

/-- C7: the hardened `newton_method` raises its validation `TypeError`
with zero estimator calls whenever `f` is not callable (first conjunct) or
`x0` is not an `int`/`float` instance (second conjunct); for callable `f`
and numeric `x0` it performs no validation-raise and runs the iteration
loop (third conjunct); and the `newton-save` variant never raises either
validation error on any input (fourth conjunct). -/
theorem C7_validation_policy :
    (∀ (fv x0v : PyVal) (tol : ℚ) (n : ℕ), pyCallable fv = false →
        Newton.newton_method fv x0v tol n = (.exn .typeErrorNotFunction, 0))
    ∧ (∀ (f : ℚ → ℚ) (x0v : PyVal) (tol : ℚ) (n : ℕ), pyNum? x0v = none →
        Newton.newton_method (.func f) x0v tol n = (.exn .typeErrorNotNumber, 0))
    ∧ (∀ (f : ℚ → ℚ) (x0v : PyVal) (q tol : ℚ) (n : ℕ), pyNum? x0v = some q →
        Newton.newton_method (.func f) x0v tol n
          = Newton.newton_method_loop f tol n q none)
    ∧ ∀ (fv x0v : PyVal) (tol : ℚ) (n : ℕ),
        (NewtonSave.newton_method fv x0v tol n).1 ≠ .exn .typeErrorNotFunction
        ∧ (NewtonSave.newton_method fv x0v tol n).1 ≠ .exn .typeErrorNotNumber := by
  refine ⟨?_, ?_, ?_, ?_⟩
  · intro fv x0v tol n hc
    cases fv with
    | func f => simp [pyCallable] at hc
    | int m => rfl
    | float q => rfl
    | bool b => rfl
    | str s => rfl
    | none_ => rfl
  · intro f x0v tol n hx
    simp [Newton.newton_method, hx]
  · intro f x0v q tol n hx
    simp [Newton.newton_method, hx]
  · intro fv x0v tol n
    cases n with
    | zero => exact ⟨by simp [NewtonSave.newton_method], by simp [NewtonSave.newton_method]⟩
    | succ m =>
      cases hx : pyNum? x0v with
      | none => exact ⟨by simp [NewtonSave.newton_method, hx], by simp [NewtonSave.newton_method, hx]⟩
      | some q =>
        cases fv with
        | func f =>
          have heq : NewtonSave.newton_method (.func f) x0v tol (m + 1)
              = NewtonSave.newton_method_loop f tol (m + 1) q none := by
            simp [NewtonSave.newton_method, hx]
          rw [heq]
          rcases save_loop_result_cases f tol (m + 1) q none with ⟨r, hr⟩ | hr | hr <;>
            rw [hr] <;> exact ⟨by simp, by simp⟩
        | int k => exact ⟨by simp [NewtonSave.newton_method, hx], by simp [NewtonSave.newton_method, hx]⟩
        | float r => exact ⟨by simp [NewtonSave.newton_method, hx], by simp [NewtonSave.newton_method, hx]⟩
        | bool b => exact ⟨by simp [NewtonSave.newton_method, hx], by simp [NewtonSave.newton_method, hx]⟩
        | str s => exact ⟨by simp [NewtonSave.newton_method, hx], by simp [NewtonSave.newton_method, hx]⟩
        | none_ => exact ⟨by simp [NewtonSave.newton_method, hx], by simp [NewtonSave.newton_method, hx]⟩

/-- Witness for C7 at concrete inputs: a string in place of `f`, a string
in place of `x0`, a genuine run, and the save variant on a non-callable. -/
theorem C7_validation_policy_witness :
    Newton.newton_method (.str "f") (.float 1) (1 / 1000000) 100
      = (.exn .typeErrorNotFunction, 0)
    ∧ Newton.newton_method (.func fun x : ℚ => x ^ 2) (.str "one") (1 / 1000000) 100
      = (.exn .typeErrorNotNumber, 0)
    ∧ Newton.newton_method (.func fun x : ℚ => x ^ 2) (.float (3 / 2)) (1 / 1000000) 100
      = Newton.newton_method_loop (fun x : ℚ => x ^ 2) (1 / 1000000) 100 (3 / 2) none
    ∧ (NewtonSave.newton_method (.str "f") (.float 1) (1 / 1000000) 100).1
      ≠ .exn .typeErrorNotFunction :=
  ⟨C7_validation_policy.1 (.str "f") (.float 1) (1 / 1000000) 100 rfl,
   C7_validation_policy.2.1 (fun x => x ^ 2) (.str "one") (1 / 1000000) 100 rfl,
   C7_validation_policy.2.2.1 (fun x => x ^ 2) (.float (3 / 2)) (3 / 2) (1 / 1000000) 100 rfl,
   (C7_validation_policy.2.2.2 (.str "f") (.float 1) (1 / 1000000) 100).1⟩

/-- C8: on the `newton-save` solver with a positive budget, along a
trajectory whose second-derivative estimates are all nonzero, each
iteration computes `x_t = x − firstDerivative/secondDerivative` at the
current `x`, the solver stops and returns `x_t` at the first iteration
with `|x_t − x| < tol`, and when no iteration within the budget converges
it returns the last computed `x_t` — i.e. the run equals the reference
recursion `newtonSpecRun` written from the claim's words. -/
theorem C8_save_solver_refines_spec (f : ℚ → ℚ) (tol x0 : ℚ) (n : ℕ)
    (h : noSingular f tol (n + 1) x0 = true) :
    (NewtonSave.newton_method (.func f) (.float x0) tol (n + 1)).1
      = .ok (newtonSpecRun f tol (n + 1) x0) := by
  rw [save_method_run]
  exact save_loop_refines_spec f tol n x0 none h

/-- Witness for C8 at `f(x) = x^2`, `x0 = 1`, `tol = 1e-6`, budget 3: the
guard holds and the solver returns the reference value (it converges on
the second iteration at `x_t = -1/200000`). -/
theorem C8_save_solver_refines_spec_witness :
    noSingular (fun y : ℚ => y ^ 2) (1 / 1000000) 3 1 = true
    ∧ (NewtonSave.newton_method (.func fun y : ℚ => y ^ 2) (.float 1) (1 / 1000000) 3).1
        = .ok (newtonSpecRun (fun y : ℚ => y ^ 2) (1 / 1000000) 3 1) := by
  have hns : noSingular (fun y : ℚ => y ^ 2) (1 / 1000000) 3 1 = true := by
    rw [show (3 : ℕ) = 2 + 1 from rfl, noSingular,
      if_neg (by rw [fdSecondQ_sq]; norm_num), specStep_sq,
      if_neg (by rw [abs_sub_lt_iff]; norm_num [eps0]), noSingular,
      if_neg (by rw [fdSecondQ_sq]; norm_num), specStep_sq,
      if_pos (by rw [abs_sub_lt_iff]; norm_num [eps0])]
  exact ⟨hns, C8_save_solver_refines_spec (fun y => y ^ 2) (1 / 1000000) 1 2 hns⟩

/-- C9: for every `f`, `x`, and nonzero `eps`,
`firstDerivative(f, x, eps)` returns exactly the forward difference
quotient `(f(x+eps) − f(x)) / eps` (with `eps = 0` it raises instead of
returning — see C6). -/
theorem C9_forward_difference_quotient (f : ℚ → ℚ) (x eps : ℚ) (h : eps ≠ 0) :
    finite_difference_first f x eps = .ok ((f (x + eps) - f x) / eps) :=
  finite_difference_first_ok f x eps h

/-- Witness for C9 at `f(x) = x^2`, `x = 1`, `eps = 1`. -/
theorem C9_forward_difference_quotient_witness :
    finite_difference_first (fun x : ℚ => x ^ 2) 1 1
      = .ok (((1 + 1) ^ 2 - 1 ^ 2) / 1) :=
  C9_forward_difference_quotient (fun x => x ^ 2) 1 1 (by norm_num)

/-- C10: the hardened variant's numeric validation accepts booleans:
`newton_method(f, True)` and `newton_method(f, False)` pass the
`isinstance(x0, (int, float))` check (in Python `bool` is a subclass of
`int`) and run the iteration loop from `x0 = 1` resp. `x0 = 0`, calling
the derivative estimators at least once whenever the budget is positive,
instead of raising the invalid-argument `TypeError`. -/
theorem C10_bool_passes_numeric_check (f : ℚ → ℚ) (tol : ℚ) (n : ℕ) :
    Newton.newton_method (.func f) (.bool true) tol n
      = Newton.newton_method_loop f tol n 1 none
    ∧ Newton.newton_method (.func f) (.bool false) tol n
      = Newton.newton_method_loop f tol n 0 none
    ∧ (1 ≤ n →
        1 ≤ (Newton.newton_method (.func f) (.bool true) tol n).2
        ∧ 1 ≤ (Newton.newton_method (.func f) (.bool false) tol n).2) := by
  refine ⟨rfl, rfl, ?_⟩
  intro h
  obtain ⟨m, rfl⟩ : ∃ m, n = m + 1 := ⟨n - 1, by omega⟩
  constructor
  · rw [show Newton.newton_method (.func f) (.bool true) tol (m + 1)
        = Newton.newton_method_loop f tol (m + 1) 1 none from rfl]
    exact newton_loop_count_pos f tol m 1 none
  · rw [show Newton.newton_method (.func f) (.bool false) tol (m + 1)
        = Newton.newton_method_loop f tol (m + 1) 0 none from rfl]
    exact newton_loop_count_pos f tol m 0 none

/-- Witness for C10 at `f(x) = x^2`, budget 1. -/
theorem C10_bool_passes_numeric_check_witness :
    Newton.newton_method (.func fun y : ℚ => y ^ 2) (.bool true) (1 / 1000000) 1
      = Newton.newton_method_loop (fun y : ℚ => y ^ 2) (1 / 1000000) 1 1 none
    ∧ 1 ≤ (Newton.newton_method (.func fun y : ℚ => y ^ 2) (.bool true) (1 / 1000000) 1).2 :=
  ⟨(C10_bool_passes_numeric_check (fun y => y ^ 2) (1 / 1000000) 1).1,
   ((C10_bool_passes_numeric_check (fun y => y ^ 2) (1 / 1000000) 1).2.2 (by norm_num)).1⟩
